import Mathlib

/-!
Shallow embedding of PyDolphinWatch's `DolphinConnection`
(`dolphinWatch/__init__.py`) in Lean 4, with theorems settling the
specification claims about the framer, the connection state machine,
the callback registry, the acknowledgement channel and the command
encoder.

Strings from the Python code are modelled as `List Char`; the socket,
logging and greenlet side effects are modelled as an explicit event
trace; a raised Python exception is modelled as an `Option DWError`
carried alongside the state reached when the exception propagates
(Python mutations performed before the raise persist, which the model
keeps faithfully).
-/

set_option autoImplicit false

namespace PyDolphinWatch

/-! ### Framer (`DolphinConnection._recv`, lines 502-519)

`self._buf += data.decode()`; `*lines, rest = self._buf.split("\n")`;
`self._buf = rest`; `for line in lines: self._process(line.strip())`.
-/

/-- Python's `s.split("\n")`, presented as (all pieces but the last,
the last piece): `splitNL cs = (lines, rest)` where `lines` are the
`'\n'`-terminated pieces and `rest` is the content after the final
`'\n'` (possibly empty). -/
def splitNL : List Char → List (List Char) × List Char
  | [] => ([], [])
  | c :: cs =>
    if c = '\n' then ([] :: (splitNL cs).1, (splitNL cs).2)
    else
      match splitNL cs with
      | ([], r) => ([], c :: r)
      | (l :: ls, r) => ((c :: l) :: ls, r)

/-- Python whitespace for `str.strip()` (ASCII subset, which is all the
protocol ever produces). -/
def isPySpace (c : Char) : Bool :=
  c = ' ' || c = '\t' || c = '\n' || c = '\r' || c = '\x0b' || c = '\x0c'

/-- Python's `line.strip()`: trim whitespace from both ends. -/
def pyStrip (s : List Char) : List Char :=
  ((s.dropWhile isPySpace).reverse.dropWhile isPySpace).reverse

/-- One pass of the receive-framing step on `buf ++ chunk`: the ordered
list of dispatched (stripped) messages together with the new buffer. -/
def feedChunk (buf chunk : List Char) : List (List Char) × List Char :=
  ((splitNL (buf ++ chunk)).1.map pyStrip, (splitNL (buf ++ chunk)).2)

/-- Feeding a list of chunks one at a time through the framing step,
threading the buffer, and collecting all dispatched messages in order. -/
def feedAll (buf : List Char) : List (List Char) → List (List Char) × List Char
  | [] => ([], buf)
  | c :: cs =>
    ((feedChunk buf c).1 ++ (feedAll (feedChunk buf c).2 cs).1,
     (feedAll (feedChunk buf c).2 cs).2)

/-- Reassembling the pieces of a split: each complete line followed by
its `'\n'` terminator, then the unterminated rest. -/
def joinNL : List (List Char) → List Char → List Char
  | [], r => r
  | l :: ls, r => l ++ '\n' :: joinNL ls r

/-- How the split of a suffix is merged with the leftover `r` of the
split of a prefix: `r` is prepended to the first piece of the suffix. -/
def glueSplit (r : List Char) : List (List Char) × List Char → List (List Char) × List Char
  | ([], rest) => ([], r ++ rest)
  | (l :: ls, rest) => ((r ++ l) :: ls, rest)

/-! ### Connection state (`DolphinConnection.__init__`, lines 54-73)

The socket, the logging calls, the spawned greenlets and the two
user-supplied lifecycle callbacks are external effects: they are
modelled as an event trace.  The `AsyncResult` acknowledgement slot
is `none` while unresolved (a `get` on it blocks) and `some v` once
resolved with the Python value `v` (`None`, `False` or `True`). -/

/-- The Python values ever stored in the `_feedback` `AsyncResult`. -/
inductive PyVal
  | pynone
  | pyfalse
  | pytrue
deriving DecidableEq

/-- A Python exception escaping a modelled method. -/
inductive DWError
  | notConnected
  | valueError
  | indexError
  | keyError
deriving DecidableEq

/-- One entry of `self._callbacks`: the handler (opaque id for the
Python function object) and the `_subscribe` persistence flag. -/
structure CallbackEntry where
  handler : Nat
  persistent : Bool
deriving DecidableEq

/-- Observable side effects, in program order. -/
inductive Event
  | Sent (payload : List Char)
  | SetConnected (b : Bool)
  | AckResolved (v : PyVal)
  | SockClosed
  | OnConnect
  | OnDisconnect (reason : Nat)
  | Dereg (addr : Int)
  | HandlerSpawn (handler : Nat) (vals : List Int)
  | LogWarn
  | LogMsg (level : Nat) (text : List Char)
deriving DecidableEq

/-- The mutable state of a `DolphinConnection` instance. -/
structure ConnState where
  connected : Bool
  sockOpen : Bool
  callbacks : List (Int × CallbackEntry)
  buf : List Char
  sep : List Char
  feedback : Option PyVal
  hasConnectCb : Bool
  hasDisconnectCb : Bool
deriving DecidableEq

/-- Result of a modelled method call: the state reached, the events
emitted before returning or raising, and the raised exception if any
(mutations made before the raise are kept, as in Python). -/
structure Outcome where
  state : ConnState
  events : List Event
  error : Option DWError
deriving DecidableEq

/-- Shorthand for a string literal as a character list. -/
def chars (s : String) : List Char := s.data

/-- Decimal rendering of a natural, as Python's `"%d" % n`. -/
def natChars (n : Nat) : List Char := (toString n).data

/-- Decimal rendering of an integer, as Python's `"%d" % i`. -/
def intChars (i : Int) : List Char := (toString i).data

/-- The state produced by `DolphinConnection.__init__` (lines 63-73):
disconnected, empty callback table, empty buffer, newline separator,
acknowledgement slot pre-resolved with `None`, no lifecycle callbacks. -/
def initState : ConnState :=
  { connected := false
    sockOpen := false
    callbacks := []
    buf := []
    sep := chars "\n"
    feedback := some PyVal.pynone
    hasConnectCb := false
    hasDisconnectCb := false }

/-- The `DisconnectReason` enum (lines 24-29). -/
def CONNECTION_CLOSED_BY_PEER : Nat := 1

def CONNECTION_CLOSED_BY_HOST : Nat := 2

def CONNECTION_LOST : Nat := 3

def CONNECTION_NOT_ESTABLISHED : Nat := 4

/-! ### Python dict operations on the callback table -/

/-- `self._callbacks[addr] = v`: overwrite any entry for the key. -/
def dictInsert (d : List (Int × CallbackEntry)) (k : Int) (v : CallbackEntry) :
    List (Int × CallbackEntry) :=
  (k, v) :: d.filter (fun p => p.1 != k)

/-- `self._callbacks.get(addr)`. -/
def dictGet (d : List (Int × CallbackEntry)) (k : Int) : Option CallbackEntry :=
  (d.find? (fun p => p.1 == k)).map (fun p => p.2)

/-- `self._callbacks.pop(addr)` (the removal; its `KeyError` on a
missing key is never reached on the paths modelled here). -/
def dictPop (d : List (Int × CallbackEntry)) (k : Int) : List (Int × CallbackEntry) :=
  d.filter (fun p => p.1 != k)

/-! ### Disconnect paths (lines 104-125) -/

/-- `DolphinConnection._disconnect` (lines 115-125): a no-op when
already disconnected; otherwise, in order: clear the connected flag,
resolve the acknowledgement slot with `False`, close the socket
(ignoring close errors), and invoke `onDisconnect(reason)` if set. -/
def disconnectInternal (s : ConnState) (reason : Nat) : ConnState × List Event :=
  if s.connected then
    ({ s with connected := false, feedback := some PyVal.pyfalse, sockOpen := false },
     [Event.SetConnected false, Event.AckResolved PyVal.pyfalse, Event.SockClosed] ++
       (if s.hasDisconnectCb then [Event.OnDisconnect reason] else []))
  else (s, [])

/-- `DolphinConnection.disconnect` (lines 104-113): dispatches to
`_disconnect` with `CONNECTION_CLOSED_BY_HOST` when connected. -/
def disconnect (s : ConnState) : ConnState × List Event :=
  if s.connected then disconnectInternal s CONNECTION_CLOSED_BY_HOST else (s, [])

/-! ### Command transmission (`DolphinConnection._cmd`, lines 435-451) -/

/-- `_cmd(cmd)` without feedback: raise `DolphinNotConnected` when not
connected, else send the command followed by the current separator. -/
def cmdPlain (s : ConnState) (c : List Char) : Outcome :=
  if s.connected then
    { state := s, events := [Event.Sent (c ++ s.sep)], error := none }
  else
    { state := s, events := [], error := some DWError.notConnected }

/-- `_cmd(cmd, True)`: raise when not connected; else wait (with a
bounded timeout that is swallowed) for any previous slot, arm a fresh
unresolved `AsyncResult`, and send.  The caller then blocks on
`self._feedback.get(True)`; the value that call returns is whatever the
slot is later resolved with (see `ackAwait`). -/
def cmdFeedback (s : ConnState) (c : List Char) : Outcome :=
  if s.connected then
    { state := { s with feedback := none }
      events := [Event.Sent (c ++ s.sep)]
      error := none }
  else
    { state := s, events := [], error := some DWError.notConnected }

/-- The value `self._feedback.get(True)` returns once the armed slot
has been resolved; `none` while it would still block. -/
def ackAwait (s : ConnState) : Option PyVal := s.feedback

/-! ### Batch mode (lines 148-163) -/

/-- `startBatch`: switch the separator to the batch terminator. -/
def startBatch (s : ConnState) : ConnState :=
  { s with sep := chars ";" }

/-- `endBatch`: restore the line terminator, then flush an empty
command via the feedback-less branch of `_cmd`. -/
def endBatch (s : ConnState) : Outcome :=
  cmdPlain { s with sep := chars "\n" } []

/-! ### Registration and the read/subscribe encoders -/

/-- `_reg_callback` (lines 453-454). -/
def regCallback (s : ConnState) (addr : Int) (handler : Nat) (persistent : Bool) :
    ConnState :=
  { s with callbacks := dictInsert s.callbacks addr ⟨handler, persistent⟩ }

/-- `read(mode, addr, callback)` (lines 192-200): register a one-shot
entry, then transmit (the registration survives a raise in `_cmd`). -/
def readCall (s : ConnState) (mode : Nat) (addr : Int) (handler : Nat) : Outcome :=
  cmdPlain (regCallback s addr handler false)
    (chars "READ " ++ natChars mode ++ chars " " ++ intChars addr)

/-- `_subscribe(mode, addr, callback)` (lines 202-211): register a
persistent entry, then transmit. -/
def subscribeCall (s : ConnState) (mode : Nat) (addr : Int) (handler : Nat) : Outcome :=
  cmdPlain (regCallback s addr handler true)
    (chars "SUBSCRIBE " ++ natChars mode ++ chars " " ++ intChars addr)

/-- `read32` (lines 280-289): alignment check before anything else. -/
def read32Call (s : ConnState) (addr : Int) (handler : Nat) : Outcome :=
  if addr % 4 != 0 then
    { state := s, events := [], error := some DWError.valueError }
  else readCall s 32 addr handler

/-- `subscribe32` (lines 309-319): alignment check before anything else. -/
def subscribe32Call (s : ConnState) (addr : Int) (handler : Nat) : Outcome :=
  if addr % 4 != 0 then
    { state := s, events := [], error := some DWError.valueError }
  else subscribeCall s 32 addr handler

/-! ### Savestate commands (lines 391-430) -/

/-- The rejected filename characters of `save`/`load`/`insert`. -/
def badFilenameChars : List Char := chars "?\"<>|"

/-- `any(c in filename for c in "?\"<>|")`. -/
def badFilename (fn : List Char) : Bool :=
  badFilenameChars.any (fun c => fn.contains c)

/-- `save(filename)` (lines 391-398). -/
def saveCall (s : ConnState) (fn : List Char) : Outcome :=
  if badFilename fn then
    { state := s, events := [], error := some DWError.valueError }
  else cmdPlain s (chars "SAVE " ++ fn)

/-- `load(filename)` (lines 400-410): the only acknowledgement-bearing
command; arms the slot and blocks on it after sending. -/
def loadCall (s : ConnState) (fn : List Char) : Outcome :=
  if badFilename fn then
    { state := s, events := [], error := some DWError.valueError }
  else cmdFeedback s (chars "LOAD " ++ fn)

/-- `insert(filename)` (lines 420-430). -/
def insertCall (s : ConnState) (fn : List Char) : Outcome :=
  if badFilename fn then
    { state := s, events := [], error := some DWError.valueError }
  else cmdPlain s (chars "INSERT " ++ fn)

/-! ### The dispatcher (`DolphinConnection._process`, lines 459-500)

`parts = line.split(" ")` keeps empty fields; the hex-translation
loop for the verbose log swallows all its own exceptions and is not
modelled as an event.  Field access `parts[i]` raises `IndexError`
when missing; `int(...)` raises `ValueError` on non-integer text;
`_log_translation[...]` raises `KeyError` on an unknown level. -/

/-- Python's `line.split(" ")` with an explicit separator: empty
fields are kept, and the result is never the empty list. -/
def splitSpaces : List Char → List (List Char)
  | [] => [[]]
  | c :: cs =>
    if c = ' ' then [] :: splitSpaces cs
    else
      match splitSpaces cs with
      | [] => [[c]]
      | p :: ps => (c :: p) :: ps

/-- The value of a nonempty all-digit string, else `none`. -/
def digitsVal (ds : List Char) : Option Nat :=
  if ds = [] then none
  else if ds.all Char.isDigit then
    some (ds.foldl (fun acc c => acc * 10 + (c.toNat - 48)) 0)
  else none

/-- Python's `int(s)` on the strings this protocol can carry:
surrounding whitespace stripped, an optional sign, then decimal
digits; `none` models the `ValueError`. -/
def pyInt (s : List Char) : Option Int :=
  match pyStrip s with
  | '-' :: ds => (digitsVal ds).map (fun n => -(n : Int))
  | '+' :: ds => (digitsVal ds).map (fun n => (n : Int))
  | ds => (digitsVal ds).map (fun n => (n : Int))

/-- `[int(v) for v in parts]`: all fields parsed, or the first
failure models the `ValueError`. -/
def pyIntList : List (List Char) → Option (List Int)
  | [] => some []
  | v :: vs =>
    match pyInt v with
    | none => none
    | some i =>
      match pyIntList vs with
      | none => none
      | some is => some (i :: is)

/-- `_log_translation` (lines 31-37): Python log levels for the five
protocol levels; `none` models the `KeyError`. -/
def logTranslation (n : Int) : Option Nat :=
  if n = 1 then some 20
  else if n = 2 then some 40
  else if n = 3 then some 30
  else if n = 4 then some 20
  else if n = 5 then some 10
  else none

/-- Python's `" ".join(parts)`. -/
def joinSpaces : List (List Char) → List Char
  | [] => []
  | [p] => p
  | p :: ps => p ++ ' ' :: joinSpaces ps

/-- `DolphinConnection._process(line)` (lines 459-500). -/
def processLine (s : ConnState) (line : List Char) : Outcome :=
  match splitSpaces line with
  | [] => { state := s, events := [], error := some DWError.indexError }
  | p0 :: rest =>
    if p0 = chars "MEM" then
      match rest with
      | [] => { state := s, events := [], error := some DWError.indexError }
      | a :: rest2 =>
        match pyInt a with
        | none => { state := s, events := [], error := some DWError.valueError }
        | some addr =>
          match rest2 with
          | [] => { state := s, events := [], error := some DWError.indexError }
          | v :: _ =>
            match pyInt v with
            | none => { state := s, events := [], error := some DWError.valueError }
            | some val =>
              match dictGet s.callbacks addr with
              | some entry =>
                if entry.persistent then
                  { state := s
                    events := [Event.HandlerSpawn entry.handler [val]]
                    error := none }
                else
                  { state := { s with callbacks := dictPop s.callbacks addr }
                    events := [Event.Dereg addr, Event.HandlerSpawn entry.handler [val]]
                    error := none }
              | none => { state := s, events := [Event.LogWarn], error := none }
    else if p0 = chars "MEM_MULTI" then
      match rest with
      | [] => { state := s, events := [], error := some DWError.indexError }
      | a :: vs =>
        match pyInt a with
        | none => { state := s, events := [], error := some DWError.valueError }
        | some addr =>
          match pyIntList vs with
          | none => { state := s, events := [], error := some DWError.valueError }
          | some data =>
            match dictGet s.callbacks addr with
            | some entry =>
              if entry.persistent then
                { state := s
                  events := [Event.HandlerSpawn entry.handler data]
                  error := none }
              else
                { state := { s with callbacks := dictPop s.callbacks addr }
                  events := [Event.Dereg addr, Event.HandlerSpawn entry.handler data]
                  error := none }
            | none => { state := s, events := [Event.LogWarn], error := none }
    else if p0 = chars "FAIL" then
      { state := { s with feedback := some PyVal.pyfalse }
        events := [Event.AckResolved PyVal.pyfalse]
        error := none }
    else if p0 = chars "SUCCESS" then
      { state := { s with feedback := some PyVal.pytrue }
        events := [Event.AckResolved PyVal.pytrue]
        error := none }
    else if p0 = chars "LOG" then
      match rest with
      | [] => { state := s, events := [], error := some DWError.indexError }
      | lv :: txt =>
        match pyInt lv with
        | none => { state := s, events := [], error := some DWError.valueError }
        | some n =>
          match logTranslation n with
          | none => { state := s, events := [], error := some DWError.keyError }
          | some level =>
            { state := s, events := [Event.LogMsg level (joinSpaces txt)], error := none }
    else
      { state := s, events := [Event.LogWarn], error := none }

/-- Processing the framed lines of one read in order, stopping at the
first escaping exception (which aborts the `for` loop in `_recv`). -/
def processLines (s : ConnState) : List (List Char) → Outcome
  | [] => { state := s, events := [], error := none }
  | l :: ls =>
    match processLine s l with
    | { state := s1, events := es, error := some e } =>
      { state := s1, events := es, error := some e }
    | { state := s1, events := es, error := none } =>
      { state := (processLines s1 ls).state
        events := es ++ (processLines s1 ls).events
        error := (processLines s1 ls).error }

/-! ### The receive loop (`DolphinConnection._recv`, lines 502-519)
and `connect` (lines 82-102) -/

/-- One outcome of `self._sock.recv(1024)`: a data chunk, an orderly
peer close (empty read), or a socket error. -/
inductive RecvInput
  | chunk (data : List Char)
  | closed
  | failed

/-- One iteration of the receive loop: on data, run the framing step
and dispatch every complete line (stripped); on an empty read or a
socket error, disconnect with the corresponding reason.  When already
disconnected, the loop condition fails and nothing happens. -/
def recvStep (s : ConnState) (i : RecvInput) : Outcome :=
  if s.connected then
    match i with
    | RecvInput.closed =>
      { state := (disconnectInternal s CONNECTION_CLOSED_BY_PEER).1
        events := (disconnectInternal s CONNECTION_CLOSED_BY_PEER).2
        error := none }
    | RecvInput.failed =>
      { state := (disconnectInternal s CONNECTION_LOST).1
        events := (disconnectInternal s CONNECTION_LOST).2
        error := none }
    | RecvInput.chunk d =>
      processLines { s with buf := (feedChunk s.buf d).2 } (feedChunk s.buf d).1
  else { state := s, events := [], error := none }

/-- Whether the TCP connect attempt succeeds. -/
inductive NetOutcome
  | ok
  | err

/-- The observable point inside `connect()` after `self.disconnect()`
and `self._connected = True` (lines 89-90) but before the socket
connect attempt has succeeded or failed. -/
def connectAttempt (s : ConnState) : ConnState × List Event :=
  ({ (disconnect s).1 with connected := true },
   (disconnect s).2 ++ [Event.SetConnected true])

/-- `connect()` (lines 82-102): force a disconnect, set the connected
flag, create the socket and attempt the TCP connection; on success
fire `onConnect`, on `socket.error` run `_disconnect` with
`CONNECTION_NOT_ESTABLISHED`. -/
def connectCall (s : ConnState) (net : NetOutcome) : ConnState × List Event :=
  match net with
  | NetOutcome.ok =>
    ({ (connectAttempt s).1 with sockOpen := true },
     (connectAttempt s).2 ++
       (if s.hasConnectCb then [Event.OnConnect] else []))
  | NetOutcome.err =>
    ((disconnectInternal { (connectAttempt s).1 with sockOpen := true }
        CONNECTION_NOT_ESTABLISHED).1,
     (connectAttempt s).2 ++
       (disconnectInternal { (connectAttempt s).1 with sockOpen := true }
          CONNECTION_NOT_ESTABLISHED).2)

/-! ### Derived definitions used by the theorems -/

/-- The bytes written to the socket by a trace, in order. -/
def sentBytes : List Event → List Char
  | [] => []
  | Event.Sent p :: es => p ++ sentBytes es
  | _ :: es => sentBytes es

/-- The wire form of a MEM data message with address field `a` and
value field `v`. -/
def memLine (a v : List Char) : List Char :=
  chars "MEM" ++ (' ' :: (a ++ (' ' :: v)))

/-- The wire form of a MEM_MULTI data message with address field `a`
and a single value field `v`. -/
def memMultiLine (a v : List Char) : List Char :=
  chars "MEM_MULTI" ++ (' ' :: (a ++ (' ' :: v)))

/-- The wire form of a LOG message with level field `lv` and text
`txt` (which may itself contain spaces). -/
def logLine (lv txt : List Char) : List Char :=
  chars "LOG" ++ (' ' :: (lv ++ (' ' :: txt)))

/-- The incoming command tokens `_process` recognises. -/
def recognizedTokens : List (List Char) :=
  [chars "MEM", chars "MEM_MULTI", chars "FAIL", chars "SUCCESS", chars "LOG"]

/-- A concrete connected state used to exercise the theorems. -/
def connectedState : ConnState :=
  { initState with connected := true, sockOpen := true, hasDisconnectCb := true }

/-! ### Framer lemmas -/

theorem splitNL_append (xs ys : List Char) :
    splitNL (xs ++ ys) =
      ((splitNL xs).1 ++ (glueSplit (splitNL xs).2 (splitNL ys)).1,
       (glueSplit (splitNL xs).2 (splitNL ys)).2) := by
  induction xs with
  | nil =>
    simp only [List.nil_append, splitNL]
    rcases h : splitNL ys with ⟨ls, r⟩
    cases ls <;> simp [glueSplit]
  | cons c cs ih =>
    rcases h : splitNL cs with ⟨lx, rx⟩
    rcases h2 : splitNL ys with ⟨ly, ry⟩
    rw [h, h2] at ih
    simp only [List.cons_append, splitNL, ih, h]
    by_cases hc : c = '\n'
    · cases ly <;> simp_all [glueSplit]
    · cases lx <;> cases ly <;> simp_all [glueSplit]

theorem splitNL_no_newline {xs : List Char} (h : '\n' ∉ xs) :
    splitNL xs = ([], xs) := by
  induction xs with
  | nil => rfl
  | cons c cs ih =>
    simp only [List.mem_cons, not_or] at h
    have hc : ¬ c = '\n' := fun hh => h.1 hh.symm
    simp only [splitNL, if_neg hc, ih h.2]

theorem splitNL_rest_no_newline (xs : List Char) : '\n' ∉ (splitNL xs).2 := by
  induction xs with
  | nil => simp [splitNL]
  | cons c cs ih =>
    rcases h : splitNL cs with ⟨ls, r⟩
    rw [h] at ih
    by_cases hc : c = '\n'
    · simpa [splitNL, hc, h] using ih
    · cases ls with
      | nil =>
        simp only [splitNL, if_neg hc, h, List.mem_cons, not_or]
        exact ⟨fun hh => hc hh.symm, ih⟩
      | cons l ls' =>
        simpa [splitNL, if_neg hc, h] using ih

/-- No byte is lost by the split: reassembling the complete lines with
their terminators followed by the rest gives back the input. -/
theorem splitNL_join (cs : List Char) :
    joinNL (splitNL cs).1 (splitNL cs).2 = cs := by
  induction cs with
  | nil => rfl
  | cons c cs ih =>
    rcases h : splitNL cs with ⟨ls, r⟩
    rw [h] at ih
    by_cases hc : c = '\n'
    · subst hc
      simp only [splitNL, if_pos rfl, h, joinNL, List.nil_append]
      exact congrArg (fun t => '\n' :: t) ih
    · cases ls with
      | nil =>
        simp only [splitNL, if_neg hc, h, joinNL] at ih ⊢
        exact congrArg (fun t => c :: t) ih
      | cons l ls' =>
        simp only [splitNL, if_neg hc, h, joinNL, List.cons_append] at ih ⊢
        exact congrArg (fun t => c :: t) ih

/-- Composing two framing passes is one framing pass over the
concatenation: the key step for split-invariance. -/
theorem feedChunk_feedChunk (buf c rest : List Char) :
    ((feedChunk buf c).1 ++ (feedChunk (feedChunk buf c).2 rest).1,
     (feedChunk (feedChunk buf c).2 rest).2) =
      feedChunk buf (c ++ rest) := by
  simp only [feedChunk]
  have h1 : buf ++ (c ++ rest) = (buf ++ c) ++ rest := by simp
  rw [h1, splitNL_append (buf ++ c) rest]
  have hr : splitNL (splitNL (buf ++ c)).2 = ([], (splitNL (buf ++ c)).2) :=
    splitNL_no_newline (splitNL_rest_no_newline (buf ++ c))
  rw [splitNL_append (splitNL (buf ++ c)).2 rest, hr]
  rcases h2 : splitNL rest with ⟨ly, ry⟩
  cases ly <;> simp [glueSplit]

/-- Generalised split-invariance: feeding chunks one at a time starting
from any newline-free buffer equals one pass over the concatenation. -/
theorem feedAll_eq_feedChunk (chunks : List (List Char)) (buf : List Char)
    (hbuf : '\n' ∉ buf) :
    feedAll buf chunks = feedChunk buf chunks.flatten := by
  induction chunks generalizing buf with
  | nil =>
    simp [feedAll, feedChunk, splitNL_no_newline hbuf]
  | cons c cs ih =>
    have hrest : '\n' ∉ (feedChunk buf c).2 := by
      simpa [feedChunk] using splitNL_rest_no_newline (buf ++ c)
    calc feedAll buf (c :: cs)
        = ((feedChunk buf c).1 ++ (feedAll (feedChunk buf c).2 cs).1,
           (feedAll (feedChunk buf c).2 cs).2) := rfl
      _ = ((feedChunk buf c).1 ++ (feedChunk (feedChunk buf c).2 cs.flatten).1,
           (feedChunk (feedChunk buf c).2 cs.flatten).2) := by
            rw [ih (feedChunk buf c).2 hrest]
      _ = feedChunk buf (c ++ cs.flatten) := feedChunk_feedChunk buf c cs.flatten
      _ = feedChunk buf (c :: cs).flatten := by simp

/-! ### Callback-table lemmas -/

theorem dictGet_dictInsert_self (d : List (Int × CallbackEntry)) (k : Int)
    (v : CallbackEntry) : dictGet (dictInsert d k v) k = some v := by
  simp [dictGet, dictInsert, List.find?]

theorem dictGet_dictPop_self (d : List (Int × CallbackEntry)) (k : Int) :
    dictGet (dictPop d k) k = none := by
  have hfind : List.find? (fun p => p.1 == k) (List.filter (fun p => p.1 != k) d) = none := by
    rw [List.find?_eq_none]
    intro p hp
    simp only [List.mem_filter, bne_iff_ne, ne_eq] at hp
    simpa using hp.2
  simp [dictGet, dictPop, hfind]

/-! ### Token-splitting lemmas -/

theorem splitSpaces_ne_nil (l : List Char) : splitSpaces l ≠ [] := by
  cases l with
  | nil => simp [splitSpaces]
  | cons c cs =>
    simp only [splitSpaces]
    by_cases hc : c = ' '
    · simp [hc]
    · rcases h : splitSpaces cs with _ | ⟨p, ps⟩ <;> simp [hc, h]

theorem splitSpaces_no_space {x : List Char} (h : ' ' ∉ x) :
    splitSpaces x = [x] := by
  induction x with
  | nil => rfl
  | cons c cs ih =>
    simp only [List.mem_cons, not_or] at h
    have hc : ¬ c = ' ' := fun hh => h.1 hh.symm
    simp [splitSpaces, hc, ih h.2]

theorem splitSpaces_append {x : List Char} (y : List Char) (h : ' ' ∉ x) :
    splitSpaces (x ++ (' ' :: y)) = x :: splitSpaces y := by
  induction x with
  | nil => simp [splitSpaces]
  | cons c cs ih =>
    simp only [List.mem_cons, not_or] at h
    have hc : ¬ c = ' ' := fun hh => h.1 hh.symm
    simp only [List.cons_append, splitSpaces, if_neg hc, List.append_eq, ih h.2]

theorem joinSpaces_splitSpaces (t : List Char) :
    joinSpaces (splitSpaces t) = t := by
  induction t with
  | nil => rfl
  | cons c cs ih =>
    by_cases hc : c = ' '
    · subst hc
      have hne := splitSpaces_ne_nil cs
      rcases h : splitSpaces cs with _ | ⟨p, ps⟩
      · exact absurd h hne
      · rw [h] at ih
        simp only [splitSpaces, if_pos rfl, h, joinSpaces]
        exact congrArg (fun t => ' ' :: t) ih
    · rcases h : splitSpaces cs with _ | ⟨p, ps⟩
      · exact absurd h (splitSpaces_ne_nil cs)
      · rw [h] at ih
        cases ps with
        | nil =>
          simp only [splitSpaces, if_neg hc, h, joinSpaces] at ih ⊢
          exact congrArg (fun t => c :: t) ih
        | cons q qs =>
          simp only [splitSpaces, if_neg hc, h, joinSpaces, List.cons_append] at ih ⊢
          exact congrArg (fun t => c :: t) ih

/-! ### Dispatcher lemmas -/

theorem processLine_success (s : ConnState) :
    processLine s (chars "SUCCESS") =
      { state := { s with feedback := some PyVal.pytrue }
        events := [Event.AckResolved PyVal.pytrue]
        error := none } := rfl

theorem processLine_fail (s : ConnState) :
    processLine s (chars "FAIL") =
      { state := { s with feedback := some PyVal.pyfalse }
        events := [Event.AckResolved PyVal.pyfalse]
        error := none } := rfl

/-- The dispatcher never touches the connected flag, whatever the
line, even when it raises. -/
theorem processLine_connected (s : ConnState) (line : List Char) :
    (processLine s line).state.connected = s.connected := by
  unfold processLine
  repeat' split
  all_goals simp

/-! ### Claim theorems -/

/-- C1 (confirmed). Framer split-invariance: for every byte sequence
and every way of splitting it into chunks fed one at a time to the
receive-framing step of `_recv`, the ordered sequence of dispatched
(stripped) messages and the final buffer equal those produced by a
single pass over the whole concatenated sequence; moreover the split
loses no bytes (reassembling the emitted lines with their terminators
plus the kept fragment restores the input) and the kept fragment is
never terminator-bearing, hence never emitted. -/
theorem claim_C1_framer_split_invariance (chunks : List (List Char)) :
    feedAll [] chunks = feedChunk [] chunks.flatten ∧
    joinNL (splitNL chunks.flatten).1 (splitNL chunks.flatten).2 = chunks.flatten ∧
    '\n' ∉ (feedAll [] chunks).2 := by
  refine ⟨feedAll_eq_feedChunk chunks [] (by simp), splitNL_join chunks.flatten, ?_⟩
  rw [feedAll_eq_feedChunk chunks [] (by simp)]
  simpa [feedChunk] using splitNL_rest_no_newline ([] ++ chunks.flatten)

/-- C3 (confirmed). Disconnect behaviour: while already disconnected
every disconnect path is a no-op; when connected, `_disconnect`
performs, in order, clear the connected flag, resolve the pending
acknowledgement slot with the failure sentinel `False`, close the
socket (ignoring close errors), and finally invoke `onDisconnect` (if
set) with the given reason; the four paths carry their respective
reasons (host close 2, peer close 1, read error 3, connect failure 4). -/
theorem claim_C3_disconnect_paths (s : ConnState) (reason : Nat) :
    (s.connected = false →
       disconnectInternal s reason = (s, []) ∧ disconnect s = (s, [])) ∧
    (s.connected = true →
       disconnectInternal s reason =
         ({ s with connected := false, feedback := some PyVal.pyfalse, sockOpen := false },
          [Event.SetConnected false, Event.AckResolved PyVal.pyfalse, Event.SockClosed] ++
            (if s.hasDisconnectCb then [Event.OnDisconnect reason] else []))) ∧
    (s.connected = true →
       disconnect s = disconnectInternal s CONNECTION_CLOSED_BY_HOST) ∧
    (s.connected = true →
       recvStep s RecvInput.closed =
         { state := (disconnectInternal s CONNECTION_CLOSED_BY_PEER).1
           events := (disconnectInternal s CONNECTION_CLOSED_BY_PEER).2
           error := none }) ∧
    (s.connected = true →
       recvStep s RecvInput.failed =
         { state := (disconnectInternal s CONNECTION_LOST).1
           events := (disconnectInternal s CONNECTION_LOST).2
           error := none }) ∧
    (s.hasDisconnectCb = true →
       Event.OnDisconnect CONNECTION_NOT_ESTABLISHED ∈ (connectCall s NetOutcome.err).2) := by
  refine ⟨?_, ?_, ?_, ?_, ?_, ?_⟩
  · intro h
    constructor <;> simp [disconnectInternal, disconnect, h]
  · intro h
    simp [disconnectInternal, h]
  · intro h
    simp [disconnect, h]
  · intro h
    simp [recvStep, h]
  · intro h
    simp [recvStep, h]
  · intro h
    by_cases hs : s.connected <;>
      simp [connectCall, connectAttempt, disconnect, disconnectInternal, h, hs]

/-- Witness for C3 at concrete states: the no-op on a fresh
(disconnected) instance and the full ordered action sequence on a
connected instance with a disconnect handler installed. -/
theorem claim_C3_disconnect_paths_witness :
    (disconnectInternal initState 3 = (initState, []) ∧
       disconnect initState = (initState, [])) ∧
    disconnectInternal connectedState 3 =
      ({ connectedState with
           connected := false, feedback := some PyVal.pyfalse, sockOpen := false },
       [Event.SetConnected false, Event.AckResolved PyVal.pyfalse, Event.SockClosed] ++
         (if connectedState.hasDisconnectCb then [Event.OnDisconnect 3] else [])) ∧
    disconnect connectedState = disconnectInternal connectedState CONNECTION_CLOSED_BY_HOST ∧
    recvStep connectedState RecvInput.closed =
      { state := (disconnectInternal connectedState CONNECTION_CLOSED_BY_PEER).1
        events := (disconnectInternal connectedState CONNECTION_CLOSED_BY_PEER).2
        error := none } ∧
    recvStep connectedState RecvInput.failed =
      { state := (disconnectInternal connectedState CONNECTION_LOST).1
        events := (disconnectInternal connectedState CONNECTION_LOST).2
        error := none } ∧
    Event.OnDisconnect CONNECTION_NOT_ESTABLISHED ∈
      (connectCall connectedState NetOutcome.err).2 :=
  ⟨(claim_C3_disconnect_paths initState 3).1 rfl,
   (claim_C3_disconnect_paths connectedState 3).2.1 rfl,
   (claim_C3_disconnect_paths connectedState 3).2.2.1 rfl,
   (claim_C3_disconnect_paths connectedState 3).2.2.2.1 rfl,
   (claim_C3_disconnect_paths connectedState 3).2.2.2.2.1 rfl,
   (claim_C3_disconnect_paths connectedState 3).2.2.2.2.2 rfl⟩

/-- C9 counterexample. The claim says the connected flag is never true
at an observable point during a connect attempt that has not yet
succeeded.  But `connect()` (line 90) sets `self._connected = True`
before the socket connect is even attempted: starting from the fresh
disconnected state, the observable state between line 90 and the
socket call already has the flag true — indeed the failure path relies
on this, since `_disconnect` would otherwise return without firing
`onDisconnect`. -/
theorem claim_C9_counterexample :
    initState.connected = false ∧
    (connectAttempt initState).1.connected = true := by
  exact ⟨rfl, rfl⟩

/-- C9 (amended). The connected flag is set true at the start of every
connect attempt — before the attempt has succeeded — and remains true
after a successful connect; it is cleared (only) by the disconnect
paths, including the failing-connect path; command transmission and
message processing never change it. -/
theorem claim_C9_connected_flag (s : ConnState) (reason : Nat)
    (line c : List Char) :
    (connectAttempt s).1.connected = true ∧
    (connectCall s NetOutcome.ok).1.connected = true ∧
    (connectCall s NetOutcome.err).1.connected = false ∧
    (disconnectInternal s reason).1.connected = false ∧
    (disconnect s).1.connected = false ∧
    (processLine s line).state.connected = s.connected ∧
    (cmdPlain s c).state.connected = s.connected ∧
    (cmdFeedback s c).state.connected = s.connected := by
  have hdi : ∀ t : ConnState, ∀ r : Nat, (disconnectInternal t r).1.connected = false ∨
      ((disconnectInternal t r).1 = t ∧ t.connected = false) := by
    intro t r
    by_cases ht : t.connected
    · left; simp [disconnectInternal, ht]
    · right; simp_all [disconnectInternal]
  refine ⟨rfl, rfl, ?_, ?_, ?_, processLine_connected s line, ?_, ?_⟩
  · rcases hdi { (connectAttempt s).1 with sockOpen := true } CONNECTION_NOT_ESTABLISHED with
      h | ⟨_, h2⟩
    · exact h
    · simp [connectAttempt] at h2
  · rcases hdi s reason with h | ⟨he, h2⟩
    · exact h
    · rw [he]; exact h2
  · by_cases hs : s.connected
    · simp [disconnect, disconnectInternal, hs]
    · simp_all [disconnect]
  · by_cases hs : s.connected <;> simp [cmdPlain, hs]
  · by_cases hs : s.connected <;> simp [cmdFeedback, hs]

/-- C7 (confirmed). Alignment validation: a misaligned address makes
`subscribe32` and `read32` raise `ValueError` with nothing transmitted
and nothing registered (the state is unchanged); an aligned address on
a connected connection transmits the SUBSCRIBE / READ wire command in
32-bit mode (registering the entry first, as the source does). -/
theorem claim_C7_alignment (s : ConnState) (addr : Int) (handler : Nat) :
    (addr % 4 ≠ 0 →
       subscribe32Call s addr handler =
         { state := s, events := [], error := some DWError.valueError } ∧
       read32Call s addr handler =
         { state := s, events := [], error := some DWError.valueError }) ∧
    (addr % 4 = 0 → s.connected = true →
       subscribe32Call s addr handler =
         { state := regCallback s addr handler true
           events := [Event.Sent (chars "SUBSCRIBE 32 " ++ intChars addr ++ s.sep)]
           error := none } ∧
       read32Call s addr handler =
         { state := regCallback s addr handler false
           events := [Event.Sent (chars "READ 32 " ++ intChars addr ++ s.sep)]
           error := none }) := by
  have hsub : chars "SUBSCRIBE " ++ natChars 32 ++ chars " " ++ intChars addr =
      chars "SUBSCRIBE 32 " ++ intChars addr := by
    have : chars "SUBSCRIBE " ++ natChars 32 ++ chars " " = chars "SUBSCRIBE 32 " := by decide
    rw [← this]
  have hread : chars "READ " ++ natChars 32 ++ chars " " ++ intChars addr =
      chars "READ 32 " ++ intChars addr := by
    have : chars "READ " ++ natChars 32 ++ chars " " = chars "READ 32 " := by decide
    rw [← this]
  constructor
  · intro h
    constructor <;> simp [subscribe32Call, read32Call, h]
  · intro h hc
    have hcon : (regCallback s addr handler true).connected = true := hc
    have hcon2 : (regCallback s addr handler false).connected = true := hc
    constructor
    · simp [subscribe32Call, h, subscribeCall, cmdPlain, hcon, hc, regCallback, ← hsub]
    · simp [read32Call, h, readCall, cmdPlain, hcon2, hc, regCallback, ← hread]

/-- Witness for C7 at concrete inputs: address 6 is rejected without
transmission or registration; address 8 on a connected connection
transmits the 32-bit SUBSCRIBE and READ commands. -/
theorem claim_C7_alignment_witness :
    ((6 : Int) % 4 ≠ 0 ∧
       subscribe32Call connectedState 6 7 =
         { state := connectedState, events := [], error := some DWError.valueError } ∧
       read32Call connectedState 6 7 =
         { state := connectedState, events := [], error := some DWError.valueError }) ∧
    ((8 : Int) % 4 = 0 ∧
       subscribe32Call connectedState 8 7 =
         { state := regCallback connectedState 8 7 true
           events := [Event.Sent (chars "SUBSCRIBE 32 " ++ intChars 8 ++ connectedState.sep)]
           error := none } ∧
       read32Call connectedState 8 7 =
         { state := regCallback connectedState 8 7 false
           events := [Event.Sent (chars "READ 32 " ++ intChars 8 ++ connectedState.sep)]
           error := none }) :=
  ⟨⟨by decide, (claim_C7_alignment connectedState 6 7).1 (by decide)⟩,
   ⟨by decide, (claim_C7_alignment connectedState 8 7).2 (by decide) rfl⟩⟩

/-- C8 (confirmed). Filename validation: a filename containing a
character of the set rejected by the source raises `ValueError` in
`save`/`load`/`insert` before any transmission (state unchanged, no
bytes sent); the rejection test holds exactly when the filename shares
a character with that set; an accepted filename on a connected
connection makes `save` transmit the SAVE wire command followed by the
filename, terminated by the active separator. -/
theorem claim_C8_filename_validation (s : ConnState) (fn : List Char) :
    (badFilename fn = true ↔ ∃ c, c ∈ badFilenameChars ∧ c ∈ fn) ∧
    (badFilename fn = true →
       saveCall s fn = { state := s, events := [], error := some DWError.valueError } ∧
       loadCall s fn = { state := s, events := [], error := some DWError.valueError } ∧
       insertCall s fn = { state := s, events := [], error := some DWError.valueError }) ∧
    (badFilename fn = false → s.connected = true →
       saveCall s fn =
         { state := s
           events := [Event.Sent (chars "SAVE " ++ fn ++ s.sep)]
           error := none }) := by
  refine ⟨?_, ?_, ?_⟩
  · simp [badFilename, List.any_eq_true, List.elem_iff]
  · intro h
    refine ⟨?_, ?_, ?_⟩ <;> simp [saveCall, loadCall, insertCall, h]
  · intro h hc
    simp [saveCall, cmdPlain, h, hc]

/-- Witness for C8 at concrete inputs: a filename containing a
rejected character is refused by all three commands with no bytes
sent, and an ordinary filename is transmitted by `save`. -/
theorem claim_C8_filename_validation_witness :
    (badFilename (chars "bad>file.sav") = true ↔
       ∃ c, c ∈ badFilenameChars ∧ c ∈ chars "bad>file.sav") ∧
    (saveCall connectedState (chars "bad>file.sav") =
       { state := connectedState, events := [], error := some DWError.valueError } ∧
     loadCall connectedState (chars "bad>file.sav") =
       { state := connectedState, events := [], error := some DWError.valueError } ∧
     insertCall connectedState (chars "bad>file.sav") =
       { state := connectedState, events := [], error := some DWError.valueError }) ∧
    saveCall connectedState (chars "slot1.sav") =
      { state := connectedState
        events := [Event.Sent (chars "SAVE " ++ chars "slot1.sav" ++ connectedState.sep)]
        error := none } :=
  ⟨(claim_C8_filename_validation connectedState (chars "bad>file.sav")).1,
   (claim_C8_filename_validation connectedState (chars "bad>file.sav")).2.1 (by decide),
   (claim_C8_filename_validation connectedState (chars "slot1.sav")).2.2 (by decide) rfl⟩

/-- C10 (confirmed). Registration survives the not-connected error:
`read` (and `_subscribe`) register the callback-table entry before the
connectivity check in `_cmd`, so a call on a disconnected connection
raises `DolphinNotConnected` and transmits nothing, yet leaves the new
(handler, persistent) entry in the table. -/
theorem claim_C10_registration_survives_error (s : ConnState) (mode : Nat)
    (addr : Int) (handler : Nat) (h : s.connected = false) :
    (readCall s mode addr handler).error = some DWError.notConnected ∧
    (readCall s mode addr handler).events = [] ∧
    dictGet (readCall s mode addr handler).state.callbacks addr =
      some ⟨handler, false⟩ ∧
    (subscribeCall s mode addr handler).error = some DWError.notConnected ∧
    (subscribeCall s mode addr handler).events = [] ∧
    dictGet (subscribeCall s mode addr handler).state.callbacks addr =
      some ⟨handler, true⟩ := by
  refine ⟨?_, ?_, ?_, ?_, ?_, ?_⟩ <;>
    simp [readCall, subscribeCall, cmdPlain, h, regCallback,
      dictGet_dictInsert_self]

/-- Witness for C10: a `read8`-style call and a subscribe on a fresh
disconnected instance raise, send nothing, and still register. -/
theorem claim_C10_registration_survives_error_witness :
    (readCall initState 8 256 7).error = some DWError.notConnected ∧
    (readCall initState 8 256 7).events = [] ∧
    dictGet (readCall initState 8 256 7).state.callbacks 256 =
      some ⟨7, false⟩ ∧
    (subscribeCall initState 8 256 7).error = some DWError.notConnected ∧
    (subscribeCall initState 8 256 7).events = [] ∧
    dictGet (subscribeCall initState 8 256 7).state.callbacks 256 =
      some ⟨7, true⟩ :=
  claim_C10_registration_survives_error initState 8 256 7 rfl

/-- C2 (confirmed). Synchronous acknowledgement: on a connected
connection, `load` with a valid filename raises nothing, transmits the
LOAD command, and arms a fresh unresolved acknowledgement slot; the
caller then blocks on the slot (`ackAwait`), and whichever way the
slot is resolved — a SUCCESS message, a FAIL message, or any
disconnect path — the blocked call returns `True`, `False`, or `False`
respectively (never blocking forever once a disconnect runs); `load`
raises only for an invalid filename or a disconnected connection. -/
theorem claim_C2_load_acknowledgement (s : ConnState) (fn : List Char)
    (hc : s.connected = true) (hfn : badFilename fn = false) :
    (loadCall s fn).error = none ∧
    (loadCall s fn).events = [Event.Sent (chars "LOAD " ++ fn ++ s.sep)] ∧
    ackAwait (loadCall s fn).state = none ∧
    ackAwait (processLine (loadCall s fn).state (chars "SUCCESS")).state =
      some PyVal.pytrue ∧
    ackAwait (processLine (loadCall s fn).state (chars "FAIL")).state =
      some PyVal.pyfalse ∧
    (∀ reason, ackAwait (disconnectInternal (loadCall s fn).state reason).1 =
      some PyVal.pyfalse) ∧
    (∀ fn2, badFilename fn2 = true →
       loadCall s fn2 = { state := s, events := [], error := some DWError.valueError }) ∧
    (∀ s2 : ConnState, s2.connected = false →
       loadCall s2 fn = { state := s2, events := [], error := some DWError.notConnected }) := by
  have hload : loadCall s fn =
      { state := { s with feedback := none }
        events := [Event.Sent (chars "LOAD " ++ fn ++ s.sep)]
        error := none } := by
    simp [loadCall, cmdFeedback, hfn, hc]
  refine ⟨?_, ?_, ?_, ?_, ?_, ?_, ?_, ?_⟩
  · rw [hload]
  · rw [hload]
  · rw [hload]; rfl
  · rw [hload, processLine_success]
    rfl
  · rw [hload, processLine_fail]
    rfl
  · intro reason
    rw [hload]
    simp [disconnectInternal, hc, ackAwait]
  · intro fn2 h2
    simp [loadCall, h2]
  · intro s2 h2
    simp [loadCall, cmdFeedback, hfn, h2]

/-- Witness for C2 on a concrete connected state and filename. -/
theorem claim_C2_load_acknowledgement_witness :
    (loadCall connectedState (chars "slot1.sav")).error = none ∧
    (loadCall connectedState (chars "slot1.sav")).events =
      [Event.Sent (chars "LOAD " ++ chars "slot1.sav" ++ connectedState.sep)] ∧
    ackAwait (loadCall connectedState (chars "slot1.sav")).state = none ∧
    ackAwait (processLine (loadCall connectedState (chars "slot1.sav")).state
        (chars "SUCCESS")).state = some PyVal.pytrue ∧
    ackAwait (processLine (loadCall connectedState (chars "slot1.sav")).state
        (chars "FAIL")).state = some PyVal.pyfalse ∧
    (∀ reason,
       ackAwait (disconnectInternal (loadCall connectedState (chars "slot1.sav")).state
           reason).1 = some PyVal.pyfalse) ∧
    (∀ fn2, badFilename fn2 = true →
       loadCall connectedState fn2 =
         { state := connectedState, events := [], error := some DWError.valueError }) ∧
    (∀ s2 : ConnState, s2.connected = false →
       loadCall s2 (chars "slot1.sav") =
         { state := s2, events := [], error := some DWError.notConnected }) :=
  claim_C2_load_acknowledgement connectedState (chars "slot1.sav") rfl (by decide)

/-- C5 (confirmed). Batch transmission: on a connected connection,
`startBatch(); command1; command2; endBatch()` emits sends whose
concatenated bytes form exactly one line-terminated wire payload —
both encoded commands joined by the batch separator and terminated by
the flush (the empty command with the restored line terminator) — so
the peer's framer sees exactly one complete message, and the separator
is restored afterwards. -/
theorem claim_C5_batch_single_payload (s : ConnState) (c1 c2 : List Char)
    (hc : s.connected = true) (h1 : '\n' ∉ c1) (h2 : '\n' ∉ c2) :
    (cmdPlain (startBatch s) c1).error = none ∧
    (cmdPlain (cmdPlain (startBatch s) c1).state c2).error = none ∧
    (endBatch (cmdPlain (cmdPlain (startBatch s) c1).state c2).state).error = none ∧
    (cmdPlain (startBatch s) c1).events ++
        (cmdPlain (cmdPlain (startBatch s) c1).state c2).events ++
        (endBatch (cmdPlain (cmdPlain (startBatch s) c1).state c2).state).events =
      [Event.Sent (c1 ++ chars ";"), Event.Sent (c2 ++ chars ";"),
       Event.Sent (chars "\n")] ∧
    sentBytes
        ((cmdPlain (startBatch s) c1).events ++
          (cmdPlain (cmdPlain (startBatch s) c1).state c2).events ++
          (endBatch (cmdPlain (cmdPlain (startBatch s) c1).state c2).state).events) =
      (c1 ++ chars ";" ++ (c2 ++ chars ";")) ++ chars "\n" ∧
    splitNL ((c1 ++ chars ";" ++ (c2 ++ chars ";")) ++ chars "\n") =
      ([c1 ++ chars ";" ++ (c2 ++ chars ";")], []) ∧
    (endBatch (cmdPlain (cmdPlain (startBatch s) c1).state c2).state).state.sep =
      chars "\n" := by
  have ho1 : cmdPlain (startBatch s) c1 =
      { state := startBatch s, events := [Event.Sent (c1 ++ chars ";")], error := none } := by
    simp [cmdPlain, startBatch, hc]
  have ho2 : cmdPlain (startBatch s) c2 =
      { state := startBatch s, events := [Event.Sent (c2 ++ chars ";")], error := none } := by
    simp [cmdPlain, startBatch, hc]
  have hP : '\n' ∉ c1 ++ chars ";" ++ (c2 ++ chars ";") := by
    simp only [List.mem_append, not_or]
    refine ⟨⟨h1, ?_⟩, h2, ?_⟩ <;> decide
  have hsplit : splitNL ((c1 ++ chars ";" ++ (c2 ++ chars ";")) ++ chars "\n") =
      ([c1 ++ chars ";" ++ (c2 ++ chars ";")], []) := by
    have hnl : splitNL (chars "\n") = ([[]], []) := by decide
    rw [splitNL_append, splitNL_no_newline hP, hnl]
    simp [glueSplit]
  refine ⟨?_, ?_, ?_, ?_, ?_, hsplit, ?_⟩
  · rw [ho1]
  · rw [ho1, ho2]
  · rw [ho1, ho2]
    simp [endBatch, cmdPlain, startBatch, hc]
  · rw [ho1, ho2]
    simp [endBatch, cmdPlain, startBatch, hc]
  · rw [ho1, ho2]
    simp [endBatch, cmdPlain, startBatch, hc, sentBytes]
  · rw [ho1, ho2]
    simp [endBatch, cmdPlain, startBatch, hc]

/-- Witness for C5: the concrete batch PAUSE; RESET on a connected
connection. -/
theorem claim_C5_batch_single_payload_witness :
    (cmdPlain (startBatch connectedState) (chars "PAUSE")).error = none ∧
    (cmdPlain (cmdPlain (startBatch connectedState) (chars "PAUSE")).state
        (chars "RESET")).error = none ∧
    (endBatch (cmdPlain (cmdPlain (startBatch connectedState) (chars "PAUSE")).state
        (chars "RESET")).state).error = none ∧
    (cmdPlain (startBatch connectedState) (chars "PAUSE")).events ++
        (cmdPlain (cmdPlain (startBatch connectedState) (chars "PAUSE")).state
          (chars "RESET")).events ++
        (endBatch (cmdPlain (cmdPlain (startBatch connectedState) (chars "PAUSE")).state
          (chars "RESET")).state).events =
      [Event.Sent (chars "PAUSE" ++ chars ";"), Event.Sent (chars "RESET" ++ chars ";"),
       Event.Sent (chars "\n")] ∧
    sentBytes
        ((cmdPlain (startBatch connectedState) (chars "PAUSE")).events ++
          (cmdPlain (cmdPlain (startBatch connectedState) (chars "PAUSE")).state
            (chars "RESET")).events ++
          (endBatch (cmdPlain (cmdPlain (startBatch connectedState) (chars "PAUSE")).state
            (chars "RESET")).state).events) =
      (chars "PAUSE" ++ chars ";" ++ (chars "RESET" ++ chars ";")) ++ chars "\n" ∧
    splitNL ((chars "PAUSE" ++ chars ";" ++ (chars "RESET" ++ chars ";")) ++ chars "\n") =
      ([chars "PAUSE" ++ chars ";" ++ (chars "RESET" ++ chars ";")], []) ∧
    (endBatch (cmdPlain (cmdPlain (startBatch connectedState) (chars "PAUSE")).state
        (chars "RESET")).state).state.sep = chars "\n" :=
  claim_C5_batch_single_payload connectedState (chars "PAUSE") (chars "RESET")
    rfl (by decide) (by decide)

/-- C4 (confirmed). One-shot delivery: when a MEM (or MEM_MULTI) data
message arrives for an address registered non-persistently (by a
read), the entry is removed from the callback table before the handler
is spawned — the trace shows the removal strictly before the single
handler invocation — and the address is absent from the table
immediately after delivery; a persistent (subscription) entry is
delivered without being removed. -/
theorem claim_C4_one_shot_delivery (s : ConnState) (a v : List Char)
    (addr val : Int) (hnd : Nat) (ha : ' ' ∉ a) (hv : ' ' ∉ v)
    (hpa : pyInt a = some addr) (hpv : pyInt v = some val) :
    (dictGet s.callbacks addr = some ⟨hnd, false⟩ →
       processLine s (memLine a v) =
         { state := { s with callbacks := dictPop s.callbacks addr }
           events := [Event.Dereg addr, Event.HandlerSpawn hnd [val]]
           error := none } ∧
       dictGet (processLine s (memLine a v)).state.callbacks addr = none) ∧
    (dictGet s.callbacks addr = some ⟨hnd, true⟩ →
       processLine s (memLine a v) =
         { state := s, events := [Event.HandlerSpawn hnd [val]], error := none }) ∧
    (dictGet s.callbacks addr = some ⟨hnd, false⟩ →
       processLine s (memMultiLine a v) =
         { state := { s with callbacks := dictPop s.callbacks addr }
           events := [Event.Dereg addr, Event.HandlerSpawn hnd [val]]
           error := none } ∧
       dictGet (processLine s (memMultiLine a v)).state.callbacks addr = none) ∧
    (dictGet s.callbacks addr = some ⟨hnd, true⟩ →
       processLine s (memMultiLine a v) =
         { state := s, events := [Event.HandlerSpawn hnd [val]], error := none }) := by
  have hsp : splitSpaces (memLine a v) = [chars "MEM", a, v] := by
    rw [memLine, splitSpaces_append _ (by decide), splitSpaces_append _ ha,
      splitSpaces_no_space hv]
  have hspm : splitSpaces (memMultiLine a v) = [chars "MEM_MULTI", a, v] := by
    rw [memMultiLine, splitSpaces_append _ (by decide), splitSpaces_append _ ha,
      splitSpaces_no_space hv]
  have hne : chars "MEM_MULTI" ≠ chars "MEM" := by decide
  refine ⟨?_, ?_, ?_, ?_⟩
  · intro hreg
    have hp : processLine s (memLine a v) =
        { state := { s with callbacks := dictPop s.callbacks addr }
          events := [Event.Dereg addr, Event.HandlerSpawn hnd [val]]
          error := none } := by
      simp [processLine, hsp, hpa, hpv, hreg]
    exact ⟨hp, by rw [hp]; exact dictGet_dictPop_self s.callbacks addr⟩
  · intro hreg
    simp [processLine, hsp, hpa, hpv, hreg]
  · intro hreg
    have hp : processLine s (memMultiLine a v) =
        { state := { s with callbacks := dictPop s.callbacks addr }
          events := [Event.Dereg addr, Event.HandlerSpawn hnd [val]]
          error := none } := by
      simp [processLine, hspm, hne, hpa, hpv, hreg, pyIntList]
    exact ⟨hp, by rw [hp]; exact dictGet_dictPop_self s.callbacks addr⟩
  · intro hreg
    simp [processLine, hspm, hne, hpa, hpv, hreg, pyIntList]

/-- A connected state holding one one-shot entry for address 16. -/
def oneShotState : ConnState :=
  { connectedState with callbacks := [(16, ⟨7, false⟩)] }

/-- A connected state holding one subscription entry for address 16. -/
def subscribedState : ConnState :=
  { connectedState with callbacks := [(16, ⟨7, true⟩)] }

/-- Witness for C4: delivery of MEM 16 5 to a one-shot entry removes
it before spawning the handler; to a subscription it does not. -/
theorem claim_C4_one_shot_delivery_witness :
    (processLine oneShotState (memLine (chars "16") (chars "5")) =
       { state := { oneShotState with callbacks := dictPop oneShotState.callbacks 16 }
         events := [Event.Dereg 16, Event.HandlerSpawn 7 [5]]
         error := none } ∧
     dictGet (processLine oneShotState
         (memLine (chars "16") (chars "5"))).state.callbacks 16 = none) ∧
    processLine subscribedState (memLine (chars "16") (chars "5")) =
      { state := subscribedState
        events := [Event.HandlerSpawn 7 [5]]
        error := none } ∧
    (processLine oneShotState (memMultiLine (chars "16") (chars "5")) =
       { state := { oneShotState with callbacks := dictPop oneShotState.callbacks 16 }
         events := [Event.Dereg 16, Event.HandlerSpawn 7 [5]]
         error := none } ∧
     dictGet (processLine oneShotState
         (memMultiLine (chars "16") (chars "5"))).state.callbacks 16 = none) :=
  ⟨(claim_C4_one_shot_delivery oneShotState (chars "16") (chars "5") 16 5 7
      (by decide) (by decide) (by decide) (by decide)).1 (by decide),
   (claim_C4_one_shot_delivery subscribedState (chars "16") (chars "5") 16 5 7
      (by decide) (by decide) (by decide) (by decide)).2.1 (by decide),
   (claim_C4_one_shot_delivery oneShotState (chars "16") (chars "5") 16 5 7
      (by decide) (by decide) (by decide) (by decide)).2.2.1 (by decide)⟩

/-- C6 counterexample. The claim says processing any single framed
line never raises out of the dispatcher and never terminates the
receive loop.  But `_process` parses fields with `int(...)` and
indexes `parts` and `_log_translation` unguarded, and in `_recv` the
dispatch loop sits outside the try/except: the framed line MEM x
raises `ValueError` out of the dispatcher, the exception escapes the
receive step (killing the receive loop with the connection still
flagged connected), and LOG 6 hello raises `KeyError`. -/
theorem claim_C6_counterexample :
    (processLine connectedState (chars "MEM x")).error = some DWError.valueError ∧
    (recvStep connectedState (RecvInput.chunk (chars "MEM x\n"))).error =
      some DWError.valueError ∧
    (recvStep connectedState (RecvInput.chunk (chars "MEM x\n"))).state.connected = true ∧
    (processLine connectedState (chars "LOG 6 hello")).error = some DWError.keyError := by
  refine ⟨by decide, by decide, by decide, by decide⟩

/-- C6 (amended). Processing a framed line never changes the connected
state; a line whose first token is not a recognized command is logged
as a warning, a well-formed MEM/MEM_MULTI message for an unregistered
address is logged and discarded, a well-formed LOG message with a
translatable level is forwarded to the logging collaborator, and
FAIL/SUCCESS resolve the acknowledgement slot — none of these raises.
(A recognized command with malformed or missing fields, however, does
raise out of the dispatcher and terminates the receive loop: see the
counterexample.) -/
theorem claim_C6_dispatcher_safe_cases (s : ConnState) (line : List Char) :
    (processLine s line).state.connected = s.connected ∧
    ((splitSpaces line).headD [] ∉ recognizedTokens →
       processLine s line = { state := s, events := [Event.LogWarn], error := none }) ∧
    (∀ a v addr val, ' ' ∉ a → ' ' ∉ v →
       pyInt a = some (addr : Int) → pyInt v = some (val : Int) →
       dictGet s.callbacks addr = none →
       processLine s (memLine a v) =
         { state := s, events := [Event.LogWarn], error := none } ∧
       processLine s (memMultiLine a v) =
         { state := s, events := [Event.LogWarn], error := none }) ∧
    (∀ lv txt n level, ' ' ∉ lv → pyInt lv = some (n : Int) →
       logTranslation n = some level →
       processLine s (logLine lv txt) =
         { state := s, events := [Event.LogMsg level txt], error := none }) ∧
    (processLine s (chars "FAIL")).error = none ∧
    (processLine s (chars "SUCCESS")).error = none := by
  have hne1 : chars "MEM_MULTI" ≠ chars "MEM" := by decide
  have hlg1 : chars "LOG" ≠ chars "MEM" := by decide
  have hlg2 : chars "LOG" ≠ chars "MEM_MULTI" := by decide
  have hlg3 : chars "LOG" ≠ chars "FAIL" := by decide
  have hlg4 : chars "LOG" ≠ chars "SUCCESS" := by decide
  refine ⟨processLine_connected s line, ?_, ?_, ?_, ?_, ?_⟩
  · intro hunk
    rcases hsp : splitSpaces line with _ | ⟨p0, rest⟩
    · exact absurd hsp (splitSpaces_ne_nil line)
    · rw [hsp] at hunk
      simp only [List.headD_cons, recognizedTokens, List.mem_cons,
        List.not_mem_nil, or_false, not_or] at hunk
      simp [processLine, hsp, hunk.1, hunk.2.1, hunk.2.2.1, hunk.2.2.2.1,
        hunk.2.2.2.2]
  · intro a v addr val ha hv hpa hpv hreg
    have hsp : splitSpaces (memLine a v) = [chars "MEM", a, v] := by
      rw [memLine, splitSpaces_append _ (by decide), splitSpaces_append _ ha,
        splitSpaces_no_space hv]
    have hspm : splitSpaces (memMultiLine a v) = [chars "MEM_MULTI", a, v] := by
      rw [memMultiLine, splitSpaces_append _ (by decide), splitSpaces_append _ ha,
        splitSpaces_no_space hv]
    constructor
    · simp [processLine, hsp, hpa, hpv, hreg]
    · simp [processLine, hspm, hne1, hpa, hpv, hreg, pyIntList]
  · intro lv txt n level hlv hpl hlt
    have hsp : splitSpaces (logLine lv txt) = chars "LOG" :: lv :: splitSpaces txt := by
      rw [logLine, splitSpaces_append _ (by decide), splitSpaces_append _ hlv]
    simp [processLine, hsp, hlg1, hlg2, hlg3, hlg4, hpl, hlt,
      joinSpaces_splitSpaces]
  · rw [processLine_fail]
  · rw [processLine_success]

/-- Witness for C6 (amended) on concrete lines: an unknown command is
only warned about, well-formed MEM / MEM_MULTI for the unregistered
address 32 are warned about and discarded, a LOG with level 2 is
forwarded, and none of them raises or touches the connected flag. -/
theorem claim_C6_dispatcher_safe_cases_witness :
    (processLine connectedState (chars "PING 1")).state.connected =
      connectedState.connected ∧
    processLine connectedState (chars "PING 1") =
      { state := connectedState, events := [Event.LogWarn], error := none } ∧
    (processLine connectedState (memLine (chars "32") (chars "5")) =
       { state := connectedState, events := [Event.LogWarn], error := none } ∧
     processLine connectedState (memMultiLine (chars "32") (chars "5")) =
       { state := connectedState, events := [Event.LogWarn], error := none }) ∧
    processLine connectedState (logLine (chars "2") (chars "oh no")) =
      { state := connectedState
        events := [Event.LogMsg 40 (chars "oh no")]
        error := none } :=
  ⟨(claim_C6_dispatcher_safe_cases connectedState (chars "PING 1")).1,
   (claim_C6_dispatcher_safe_cases connectedState (chars "PING 1")).2.1 (by decide),
   (claim_C6_dispatcher_safe_cases connectedState
       (memLine (chars "32") (chars "5"))).2.2.1 (chars "32") (chars "5") 32 5
     (by decide) (by decide) (by decide) (by decide) (by decide),
   (claim_C6_dispatcher_safe_cases connectedState
       (logLine (chars "2") (chars "oh no"))).2.2.2.1 (chars "2") (chars "oh no") 2 40
     (by decide) (by decide) (by decide)⟩
